import Mathlib

/-!
# Verification of the protect-dashboard data-source query-service layer

Shallow embedding of the query-service layer of the protect-dashboard
repository, centred on
`src/plugins/data-sources/abstract-sql-query-service/AbstractQueryService.ts`
and the MySQL subclass / data-source validation schema in
`src/plugins/data-sources/mysql/QueryService.ts`.

JavaScript objects used as string-keyed option bags are modelled as
functions `String → Option String`; object spread `{...a, ...b}` is the
right-biased pointwise merge.  Fallible operations return `Except String`.
-/

namespace ProtectDashboard

/-- `FieldType`, the closed union of semantic field types from
`@/features/fields/types`, as used by the query-service source. -/
inductive FieldType where
  | Text
  | Boolean
  | DateTime
  | Json
  | Textarea
  | Number
  | Id
  | Select
  | Association
deriving DecidableEq, Repr

/-- A string-keyed option bag (a JavaScript plain object). -/
def Obj : Type := String → Option String

/-- The empty object `{}`. -/
def emptyObj : Obj := fun _ => none

/-- JavaScript object spread `{...a, ...b}`: keys of `b` override keys of `a`. -/
def spread (a b : Obj) : Obj := fun k =>
  match b k with
  | some v => some v
  | none => a k

/-- `IFilter` from `@/features/tables/components/Filter`: a declarative filter
condition.  The `condition` field carries one of the closed enumeration of
condition strings (`is`, `is_not`, `contains`, `not_contains`, `starts_with`,
`ends_with`, `is_empty`, `is_not_empty`, `>`, `>=`, `<`, `<=`); the
`StringFilterConditions` enum members used in the source have their own names
as string values. -/
structure IFilter where
  columnName : String
  condition : String
  value : String
deriving DecidableEq, Repr

/-- `getCondition` from `AbstractQueryService.ts` (lines 26–55): maps a filter
condition to a SQL operator; unmatched conditions fall through to `=`. -/
def getCondition (filter : IFilter) : String :=
  match filter.condition with
  | "is" => "="
  | "is_not" => "!="
  | "contains" => "LIKE"
  | "not_contains" => "NOT LIKE"
  | "starts_with" => "LIKE"
  | "ends_with" => "LIKE"
  | "is_empty" => "LIKE"
  | "is_not_empty" => "LIKE"
  | ">" => ">"
  | ">=" => ">="
  | "<" => "<"
  | "<=" => "<="
  | _ => "="

/-- `getValue` from `AbstractQueryService.ts` (lines 57–76): transforms the
filter value for the compiled condition.  `is`, `is_not` and the `default`
switch branch all return the value verbatim. -/
def getValue (filter : IFilter) : String :=
  match filter.condition with
  | "contains" | "not_contains" => "%" ++ filter.value ++ "%"
  | "starts_with" => "%" ++ filter.value
  | "ends_with" => filter.value ++ "%"
  | "is_not_empty" | "is_empty" => ""
  | _ => filter.value

/-- A Knex query-builder value, modelled as the description of the query being
assembled: base table, optional pagination/projection, accumulated `where`
clauses `(column, operator, value)` and optional ordering. -/
structure SqlQuery where
  table : String
  limit : Option Int := none
  offset : Option Int := none
  select : Option (List String) := none
  wheres : List (String × String × String) := []
  orderBy : Option (String × String) := none
deriving DecidableEq, Repr

/-- `addFilterToQuery` from `AbstractQueryService.ts` (lines 77–79):
`query.where(filter.columnName, getCondition(filter), getValue(filter))`. -/
def addFilterToQuery (query : SqlQuery) (filter : IFilter) : SqlQuery :=
  { query with
    wheres := query.wheres ++ [(filter.columnName, getCondition filter, getValue filter)] }

/-- `getRecords` from `AbstractQueryService.ts` (lines 135–166).  `limit` and
`offset` are optional numbers (`isNumber` holds exactly when present); the
pagination branch applies `limit`, `offset` and the `select` projection only
when both are numbers.  `filters` (a required array) are each added as a
`where` clause; a non-empty `orderBy` adds `tableName.orderBy` ordering. -/
def getRecords (tableName : String) (limit offset : Option Int)
    (filters : List IFilter) (orderBy orderDirection : String)
    (select : List String) : SqlQuery :=
  let query : SqlQuery := { table := tableName }
  let query :=
    if limit.isSome && offset.isSome then
      { query with limit := limit, offset := offset, select := some select }
    else query
  let query := filters.foldl addFilterToQuery query
  if orderBy ≠ "" then
    { query with orderBy := some (tableName ++ "." ++ orderBy, orderDirection) }
  else query

/-- One entry of the schema inspector's `columnInfo(tableName)` result: the
column name and the engine's primary-key flag (the only fields the service
reads). -/
structure InspectorColumn where
  name : String
  is_primary_key : Bool
deriving DecidableEq, Repr

/-- `getPrimaryKeyColumn` from `AbstractQueryService.ts` (lines 398–407):
the name of the first column the engine metadata flags as primary key,
`none` when no column is flagged. -/
def getPrimaryKeyColumn (columnInfo : List InspectorColumn) : Option String :=
  (columnInfo.find? (fun c => c.is_primary_key)).map (fun c => c.name)

/-- The primary-key configuration error thrown by all record-level
operations: `Can't find a primary key for table ${tableName}.` -/
def pkError (tableName : String) : String :=
  s!"Can't find a primary key for table {tableName}."

/-- Row data passed to create/update, an opaque bag of column values. -/
def RowData : Type := List (String × String)

/-- The query built by `getRecord`: `select(select).where(pk, recordId).table(tableName)`. -/
structure GetRecordQuery where
  table : String
  select : List String
  whereColumn : String
  whereValue : String
deriving DecidableEq, Repr

/-- The query built by `createRecord`: `table(tableName).insert(data).returning(pk)`. -/
structure InsertQuery where
  table : String
  data : RowData
  returning : String

/-- The query built by `updateRecord`: `table(tableName).update(data).where(pk, recordId)`. -/
structure UpdateQuery where
  table : String
  data : RowData
  whereColumn : String
  whereValue : String

/-- The query built by `deleteRecord`: `table(tableName).delete().where(pk, recordId)`. -/
structure DeleteQuery where
  table : String
  whereColumn : String
  whereValue : String
deriving DecidableEq, Repr

/-- The query built by `deleteRecords`: `table(tableName).delete().whereIn(pk, recordIds)`. -/
structure DeleteInQuery where
  table : String
  whereColumn : String
  whereValues : List Int
deriving DecidableEq, Repr

/-- `getRecord` from `AbstractQueryService.ts` (lines 178–198): looks up the
primary key column first and throws the configuration error before building
any query when none is found (`!pk` is also true for an empty-string name). -/
def getRecord (columnInfo : List InspectorColumn) (tableName recordId : String)
    (select : List String) : Except String GetRecordQuery :=
  match getPrimaryKeyColumn columnInfo with
  | none => .error (pkError tableName)
  | some pk =>
    if pk = "" then .error (pkError tableName)
    else .ok { table := tableName, select := select, whereColumn := pk, whereValue := recordId }

/-- `createRecord` from `AbstractQueryService.ts` (lines 200–218). -/
def createRecord (columnInfo : List InspectorColumn) (tableName : String)
    (data : RowData) : Except String InsertQuery :=
  match getPrimaryKeyColumn columnInfo with
  | none => .error (pkError tableName)
  | some pk =>
    if pk = "" then .error (pkError tableName)
    else .ok { table := tableName, data := data, returning := pk }

/-- `updateRecord` from `AbstractQueryService.ts` (lines 220–240). -/
def updateRecord (columnInfo : List InspectorColumn) (tableName recordId : String)
    (data : RowData) : Except String UpdateQuery :=
  match getPrimaryKeyColumn columnInfo with
  | none => .error (pkError tableName)
  | some pk =>
    if pk = "" then .error (pkError tableName)
    else .ok { table := tableName, data := data, whereColumn := pk, whereValue := recordId }

/-- `deleteRecord` from `AbstractQueryService.ts` (lines 242–260). -/
def deleteRecord (columnInfo : List InspectorColumn) (tableName recordId : String) :
    Except String DeleteQuery :=
  match getPrimaryKeyColumn columnInfo with
  | none => .error (pkError tableName)
  | some pk =>
    if pk = "" then .error (pkError tableName)
    else .ok { table := tableName, whereColumn := pk, whereValue := recordId }

/-- `deleteRecords` from `AbstractQueryService.ts` (lines 262–280). -/
def deleteRecords (columnInfo : List InspectorColumn) (tableName : String)
    (recordIds : List Int) : Except String DeleteInQuery :=
  match getPrimaryKeyColumn columnInfo with
  | none => .error (pkError tableName)
  | some pk =>
    if pk = "" then .error (pkError tableName)
    else .ok { table := tableName, whereColumn := pk, whereValues := recordIds }

/-- Knex `columnInfo()` entry for one column: the raw engine-reported
metadata (native type name, nullability). -/
structure ColumnInfo where
  type : String
  nullable : Bool := true
deriving DecidableEq, Repr

/-- One entry of the inspector's `foreignKeys()` result (snake_case raw shape). -/
structure RawForeignKey where
  constraint_name : Option String := none
  table : String
  column : String
  foreign_key_table : String
  foreign_key_column : String
  foreign_key_schema : Option String := none
  on_update : Option String := none
  on_delete : Option String := none
deriving DecidableEq, Repr

/-- `ForeignKeyInfo` from the abstract-sql-query-service types: one outgoing
reference edge, in the camelCase shape produced by `getForeignKeys`. -/
structure ForeignKeyInfo where
  constraintName : Option String := none
  tableName : String
  columnName : String
  foreignTableName : String
  foreignColumnName : String
  foreignTableSchema : Option String := none
  onUpdate : Option String := none
  onDelete : Option String := none
deriving DecidableEq, Repr

/-- `getForeignKeys` from `AbstractQueryService.ts` (lines 409–424): filters
the inspector's foreign keys to the owning table and renames the fields. -/
def getForeignKeys (rawForeignKeys : List RawForeignKey) (tableName : String) :
    List ForeignKeyInfo :=
  (rawForeignKeys.filter (fun fk => fk.table = tableName)).map (fun fkInfo =>
    { constraintName := fkInfo.constraint_name
      tableName := fkInfo.table
      columnName := fkInfo.column
      foreignTableName := fkInfo.foreign_key_table
      foreignColumnName := fkInfo.foreign_key_column
      foreignTableSchema := fkInfo.foreign_key_schema
      onUpdate := fkInfo.on_update
      onDelete := fkInfo.on_delete })

/-- `Object.fromEntries` followed by key lookup: with duplicate keys the
later entry overwrites the earlier one, so lookup finds the last match. -/
def fromEntriesLookup {α : Type} (entries : List (String × α)) (key : String) : Option α :=
  (entries.reverse.find? (fun e => e.1 = key)).map (fun e => e.2)

/-- Modelled from the spec: `idColumns` from `@/features/fields` (not under
`src/`) — the recognized id-like column names whose numeric columns map to
the `Id` field type. -/
def idColumns : List String := ["id"]

/-- Modelled from the spec: `getBaseOptions` from `@/features/fields` (not
under `src/`) — the universal per-field configuration defaults (e.g.
required, label). -/
def getBaseOptions : Obj := fun k =>
  if k = "label" then some ""
  else if k = "required" then some "false"
  else none

/-- Modelled from the spec: `humanize` from `@/lib/humanize` (not under
`src/`) — word-splits the column name and capitalizes it. -/
def humanize (s : String) : String :=
  match s.toList.map (fun ch => if ch = '_' ∨ ch = '-' then ' ' else ch) with
  | [] => ""
  | c :: rest => String.mk (c.toUpper :: rest)

/-- `ColumnWithSourceInfo` (intermediate column after attaching
`dataSourceInfo` and the `primaryKey` flag). -/
structure ColumnWithSourceInfo where
  name : String
  label : String
  dataSourceInfo : ColumnInfo
  primaryKey : Bool

/-- `ColumnWithForeignKeyInfo`: adds the optional foreign-key info. -/
structure ColumnWithForeignKeyInfo extends ColumnWithSourceInfo where
  foreignKeyInfo : Option ForeignKeyInfo

/-- `ColumnWithBaseOptions`: adds the default base options. -/
structure ColumnWithBaseOptions extends ColumnWithForeignKeyInfo where
  baseOptions : Obj

/-- `ColumnWithFieldType`: adds the inferred/stored field type. -/
structure ColumnWithFieldType extends ColumnWithBaseOptions where
  fieldType : FieldType

/-- `ColumnWithFieldOptions`: adds the field-type-specific options; the final
`Column` records returned by `getColumns` have this shape (with the merged
options and recomputed label). -/
structure ColumnWithFieldOptions extends ColumnWithFieldType where
  fieldOptions : Obj

/-- `getColumnLabel` from `AbstractQueryService.ts` (lines 429–433):
`"id"` is special-cased to `"ID"`, every other name is humanized. -/
def getColumnLabel (column : ColumnWithFieldOptions) : String :=
  if column.name = "id" then "ID" else humanize column.name

/-- `getFieldTypeFromColumnInfo` from `AbstractQueryService.ts`
(lines 435–478): `Association` when foreign-key info is present, otherwise
the native-type → field-type lookup (the `default` switch branch and the
character-like cases yield `Text`). -/
def getFieldTypeFromColumnInfo (column : ColumnWithBaseOptions) : FieldType :=
  if column.foreignKeyInfo.isSome then .Association
  else
    match column.dataSourceInfo.type with
    | "boolean" | "bit" => .Boolean
    | "timestamp without time zone" | "timestamp with time zone"
    | "time without time zone" | "time with time zone" | "date" => .DateTime
    | "json" | "jsonb" => .Json
    | "text" | "xml" | "bytea" => .Textarea
    | "integer" | "bigint" | "numeric" | "smallint" | "oid" | "uuid"
    | "real" | "double precision" | "money" =>
      if idColumns.contains column.name then .Id else .Number
    | _ => .Text

/-- One stored column configuration entry, as supplied by the persisted
schema-override store: `{fieldType?, baseOptions?, fieldOptions?, label?}`. -/
structure StoredColumn where
  fieldType : Option FieldType := none
  baseOptions : Option Obj := none
  fieldOptions : Option Obj := none
  label : Option String := none

/-- The stored-columns argument of `getColumns`, used in the source as a
map from column name to stored configuration. -/
def StoredColumns : Type := Option (String → Option StoredColumn)

/-- `storedColumns?.[name]?.fieldType` — the optional-chained lookup used by
the field-type step of `getColumns` (lines 325–339). -/
def storedFieldType (storedColumns : StoredColumns) (name : String) : Option FieldType :=
  match storedColumns with
  | none => none
  | some sc =>
    match sc name with
    | none => none
    | some s => s.fieldType

/-- Modelled from the spec: the per-field-type plugin lookup behind
`getDefaultFieldOptionsForFields` (dynamic import of
`@/plugins/fields/<fieldType>/fieldOptions`, plugin files not under `src/`) —
returns the field type's default options descriptor, or nothing when the
field type defines no extra options (a non-fatal miss). -/
def fieldOptionsPlugin : FieldType → Option Obj
  | .Select => some (fun k => if k = "options" then some "" else none)
  | _ => none

/-- `getDefaultFieldOptionsForFields` from `AbstractQueryService.ts`
(lines 481–506): one plugin lookup per column, misses dropped, collected into
`[fieldName, options]` entries. -/
def getDefaultFieldOptionsForFields (columns : List (String × FieldType)) :
    List (String × Obj) :=
  columns.filterMap (fun column =>
    match fieldOptionsPlugin column.2 with
    | some options => some (column.1, options)
    | none => none)

/-- The stored-options merge step of `getColumns` (lines 360–385): spreads the
stored `baseOptions`/`fieldOptions` (or `{}` when undefined) over the column's
current options. -/
def mergeStoredOptions (column : ColumnWithFieldOptions)
    (storedColumn : Option StoredColumn) : ColumnWithFieldOptions :=
  let baseOptions :=
    match storedColumn with
    | some s => match s.baseOptions with | some b => b | none => emptyObj
    | none => emptyObj
  let fieldOptions :=
    match storedColumn with
    | some s => match s.fieldOptions with | some f => f | none => emptyObj
    | none => emptyObj
  { column with
    baseOptions := spread column.baseOptions baseOptions
    fieldOptions := spread column.fieldOptions fieldOptions }

/-- `getColumns` from `AbstractQueryService.ts` (lines 286–396), as a function
of the data the awaited engine calls return: the knex `columnInfo()` entries
(`rawColumns`), the inspector's `columnInfo(tableName)` (for the primary key),
the inspector's `foreignKeys()`, the table name and the stored column
configuration.  Mirrors the staged pipeline of the source. -/
def getColumnsModel (rawColumns : List (String × ColumnInfo))
    (inspectorColumns : List InspectorColumn)
    (rawForeignKeys : List RawForeignKey)
    (tableName : String)
    (storedColumns : StoredColumns) : List ColumnWithFieldOptions :=
  let primaryKeyColumn := getPrimaryKeyColumn inspectorColumns
  let foreignKeys := getForeignKeys rawForeignKeys tableName
  let foreignKeysByColumnName := fun n =>
    fromEntriesLookup (foreignKeys.map (fun fk => (fk.columnName, fk))) n
  let columnsWithDataSourceInfo : List ColumnWithSourceInfo :=
    rawColumns.map (fun p =>
      { name := p.1
        label := p.1
        dataSourceInfo := p.2
        primaryKey := primaryKeyColumn == some p.1 })
  let columnsWithForeignKeyInfo : List ColumnWithForeignKeyInfo :=
    columnsWithDataSourceInfo.map (fun column =>
      { toColumnWithSourceInfo := column
        foreignKeyInfo := foreignKeysByColumnName column.name })
  let baseOptions := getBaseOptions
  let columnsWithBaseOptions : List ColumnWithBaseOptions :=
    columnsWithForeignKeyInfo.map (fun column =>
      { toColumnWithForeignKeyInfo := column
        baseOptions := baseOptions })
  let columnsWithFieldType : List ColumnWithFieldType :=
    columnsWithBaseOptions.map (fun column =>
      { toColumnWithBaseOptions := column
        fieldType :=
          match storedFieldType storedColumns column.name with
          | some ft => ft
          | none => getFieldTypeFromColumnInfo column })
  let fieldOptionsByFieldName :=
    getDefaultFieldOptionsForFields (columnsWithFieldType.map (fun c => (c.name, c.fieldType)))
  let columnsWithFieldOptions : List ColumnWithFieldOptions :=
    columnsWithFieldType.map (fun column =>
      { toColumnWithFieldType := column
        fieldOptions :=
          match fromEntriesLookup fieldOptionsByFieldName column.name with
          | some fo => fo
          | none => emptyObj })
  let columnsWithStoredOptions :=
    columnsWithFieldOptions.map (fun column =>
      mergeStoredOptions column
        (match storedColumns with | some sc => sc column.name | none => none))
  columnsWithStoredOptions.map (fun column =>
    { column with label := getColumnLabel column })

/-- The foreign-key-by-column-name lookup of `getColumns`
(`Object.fromEntries(foreignKeys.map(fk => [fk.columnName, fk]))[name]`). -/
def fkLookup (rawForeignKeys : List RawForeignKey) (tableName name : String) :
    Option ForeignKeyInfo :=
  fromEntriesLookup
    ((getForeignKeys rawForeignKeys tableName).map (fun fk => (fk.columnName, fk))) name

/-- The per-column field type produced by the field-type step of `getColumns`:
the stored field type when declared, else the engine inference applied to the
column as assembled by the earlier pipeline stages. -/
def inferredFieldType (inspectorColumns : List InspectorColumn)
    (rawForeignKeys : List RawForeignKey) (tableName : String)
    (storedColumns : StoredColumns) (p : String × ColumnInfo) : FieldType :=
  match storedFieldType storedColumns p.1 with
  | some ft => ft
  | none => getFieldTypeFromColumnInfo
      { name := p.1
        label := p.1
        dataSourceInfo := p.2
        primaryKey := getPrimaryKeyColumn inspectorColumns == some p.1
        foreignKeyInfo := fkLookup rawForeignKeys tableName p.1
        baseOptions := getBaseOptions }

/-- The `options` object of a new data source definition, as validated by the
Joi schema (`url` is its only declared key). -/
structure NewDataSourceOptions where
  url : Option String := none
deriving DecidableEq, Repr

/-- A new data source definition submitted for validation: the three keys the
Joi schema declares, each possibly absent. -/
structure NewDataSourceInput where
  name : Option String := none
  type : Option String := none
  options : Option NewDataSourceOptions := none
deriving DecidableEq, Repr

/-- The Joi validation `schema` from
`src/plugins/data-sources/mysql/QueryService.ts` (lines 95–101):
`name` is a required string of length ≥ 3, `type` is required and must be the
single allowed value `"postgresql"`, and `options` is an *optional* object
which, when present, must carry a required (hence non-empty, per Joi's
default) `url` string. -/
def schemaValidate (input : NewDataSourceInput) : Bool :=
  (match input.name with
   | some n => 3 ≤ n.length
   | none => false) &&
  (match input.type with
   | some t => t == "postgresql"
   | none => false) &&
  (match input.options with
   | none => true
   | some o =>
     match o.url with
     | some u => !(u == "")
     | none => false)

/-- The acceptance predicate exactly as claim C9 states it (spec §6): a name
of at least 3 characters, a type among the supported engine enum values
(`"postgresql"`, `"mysql"`, …), and a nested options object containing at
least a `url` field. -/
def claimedSchemaAccepts (input : NewDataSourceInput) : Bool :=
  (match input.name with
   | some n => 3 ≤ n.length
   | none => false) &&
  (match input.type with
   | some t => t == "postgresql" || t == "mysql"
   | none => false) &&
  (match input.options with
   | some o => o.url.isSome
   | none => false)

/-- Concrete raw-column list for the C1 counterexample: one integer column
`owner_id`. -/
def c1RawColumns : List (String × ColumnInfo) :=
  [("owner_id", { type := "integer", nullable := false })]

/-- Concrete inspector columns for the C1 counterexample. -/
def c1InspectorColumns : List InspectorColumn :=
  [{ name := "owner_id", is_primary_key := false }]

/-- Concrete foreign keys for the C1 counterexample: `posts.owner_id →
users.id`. -/
def c1ForeignKeys : List RawForeignKey :=
  [{ constraint_name := some "posts_owner_id_fkey"
     table := "posts"
     column := "owner_id"
     foreign_key_table := "users"
     foreign_key_column := "id"
     foreign_key_schema := some "public"
     on_update := some "NO ACTION"
     on_delete := some "NO ACTION" }]

/-- Concrete stored configuration for the C1 counterexample: the foreign-key
column `owner_id` has a stored `fieldType` of `Text`. -/
def c1StoredColumns : StoredColumns :=
  some (fun n => if n = "owner_id" then some { fieldType := some .Text } else none)

/-- Concrete raw-column list for the C3 counterexample: one varchar column
`full_name`. -/
def c3RawColumns : List (String × ColumnInfo) :=
  [("full_name", { type := "character varying" })]

/-- Concrete stored configuration for the C3 counterexample: `full_name` has
a stored label `"Custom Label"`. -/
def c3StoredColumns : StoredColumns :=
  some (fun n => if n = "full_name" then some { label := some "Custom Label" } else none)

/-- Concrete input for the C9 counterexample: a well-named postgresql data
source with no `options` object at all. -/
def c9Input : NewDataSourceInput :=
  { name := some "warehouse", type := some "postgresql", options := none }

/-- Concrete raw-column list for the C5 witness: one integer column `score`
whose stored configuration declares the (non-inferred) type `Textarea`. -/
def c5RawColumns : List (String × ColumnInfo) :=
  [("score", { type := "integer" })]

/-- Concrete stored configuration for the C5 witness. -/
def c5StoredColumns : StoredColumns :=
  some (fun n => if n = "score" then some { fieldType := some .Textarea } else none)

/-- Concrete column for the C6 witness. -/
def c6Column : ColumnWithFieldOptions :=
  { name := "title"
    label := "title"
    dataSourceInfo := { type := "text" }
    primaryKey := false
    foreignKeyInfo := none
    baseOptions := fun k =>
      if k = "required" then some "false" else if k = "help" then some "none" else none
    fieldType := .Textarea
    fieldOptions := fun k => if k = "rows" then some "5" else none }

/-- Concrete stored base options for the C6 witness: overrides `required`,
leaves `help` unset. -/
def c6Base : Obj := fun k => if k = "required" then some "true" else none

/-- Concrete stored field options for the C6 witness. -/
def c6Field : Obj := fun k => if k = "rows" then some "10" else none

/-- Concrete stored column for the C6 witness. -/
def c6Stored : StoredColumn :=
  { baseOptions := some c6Base, fieldOptions := some c6Field }

/-- Concrete raw-column list for the C10 witness: a two-column join table. -/
def c10RawColumns : List (String × ColumnInfo) :=
  [("order_id", { type := "integer", nullable := false }),
   ("product_id", { type := "integer", nullable := false })]

/-- Concrete inspector columns for the C10 witness: the engine flags both
columns of the composite primary key. -/
def c10InspectorColumns : List InspectorColumn :=
  [{ name := "order_id", is_primary_key := true },
   { name := "product_id", is_primary_key := true }]

/-! ## Helper lemmas -/

lemma foldl_addFilterToQuery_pagination (filters : List IFilter) (q : SqlQuery) :
    (filters.foldl addFilterToQuery q).limit = q.limit ∧
    (filters.foldl addFilterToQuery q).offset = q.offset ∧
    (filters.foldl addFilterToQuery q).select = q.select := by
  induction filters generalizing q with
  | nil => exact ⟨rfl, rfl, rfl⟩
  | cons f fs ih => simpa [List.foldl_cons, addFilterToQuery] using ih (addFilterToQuery q f)

/-- The pagination/projection fields of the query built by `getRecords`. -/
lemma getRecords_pagination_fields (tableName : String) (limit offset : Option Int)
    (filters : List IFilter) (orderBy orderDirection : String) (select : List String) :
    (getRecords tableName limit offset filters orderBy orderDirection select).limit
      = (if limit.isSome && offset.isSome then limit else none) ∧
    (getRecords tableName limit offset filters orderBy orderDirection select).offset
      = (if limit.isSome && offset.isSome then offset else none) ∧
    (getRecords tableName limit offset filters orderBy orderDirection select).select
      = (if limit.isSome && offset.isSome then some select else none) := by
  unfold getRecords
  by_cases hp : limit.isSome && offset.isSome <;>
    by_cases ho : orderBy = "" <;>
      simp [hp, ho, foldl_addFilterToQuery_pagination]

/-- Per-column characterization of the `getColumns` pipeline: name,
primary-key flag, foreign-key info, field type and label of each produced
column as a function of the corresponding raw engine column. -/
lemma getColumnsModel_proj (rawColumns : List (String × ColumnInfo))
    (inspectorColumns : List InspectorColumn)
    (rawForeignKeys : List RawForeignKey) (tableName : String)
    (storedColumns : StoredColumns) :
    (getColumnsModel rawColumns inspectorColumns rawForeignKeys tableName storedColumns).map
        (fun c => (c.name, c.primaryKey, c.foreignKeyInfo, c.fieldType, c.label)) =
      rawColumns.map (fun p =>
        (p.1, getPrimaryKeyColumn inspectorColumns == some p.1,
          fkLookup rawForeignKeys tableName p.1,
          inferredFieldType inspectorColumns rawForeignKeys tableName storedColumns p,
          if p.1 = "id" then "ID" else humanize p.1)) := by
  simp only [getColumnsModel, List.map_map]
  apply List.map_congr_left
  intro p _
  rfl

/-- Name/primary-key-flag characterization of the `getColumns` pipeline. -/
lemma getColumnsModel_name_pk (rawColumns : List (String × ColumnInfo))
    (inspectorColumns : List InspectorColumn)
    (rawForeignKeys : List RawForeignKey) (tableName : String)
    (storedColumns : StoredColumns) :
    (getColumnsModel rawColumns inspectorColumns rawForeignKeys tableName storedColumns).map
        (fun c => (c.name, c.primaryKey)) =
      rawColumns.map (fun p =>
        (p.1, getPrimaryKeyColumn inspectorColumns == some p.1)) := by
  simp only [getColumnsModel, List.map_map]
  apply List.map_congr_left
  intro p _
  rfl

lemma getColumnsModel_length (rawColumns : List (String × ColumnInfo))
    (inspectorColumns : List InspectorColumn)
    (rawForeignKeys : List RawForeignKey) (tableName : String)
    (storedColumns : StoredColumns) :
    (getColumnsModel rawColumns inspectorColumns rawForeignKeys tableName
      storedColumns).length = rawColumns.length := by
  simp [getColumnsModel]

/-- Pointwise (index-based) form of `getColumnsModel_proj`. -/
lemma getColumnsModel_getElem (rawColumns : List (String × ColumnInfo))
    (inspectorColumns : List InspectorColumn)
    (rawForeignKeys : List RawForeignKey) (tableName : String)
    (storedColumns : StoredColumns) (i : Nat)
    (hi : i < (getColumnsModel rawColumns inspectorColumns rawForeignKeys tableName
      storedColumns).length)
    (hi' : i < rawColumns.length) :
    ((getColumnsModel rawColumns inspectorColumns rawForeignKeys tableName
        storedColumns)[i].name,
     (getColumnsModel rawColumns inspectorColumns rawForeignKeys tableName
        storedColumns)[i].primaryKey,
     (getColumnsModel rawColumns inspectorColumns rawForeignKeys tableName
        storedColumns)[i].foreignKeyInfo,
     (getColumnsModel rawColumns inspectorColumns rawForeignKeys tableName
        storedColumns)[i].fieldType,
     (getColumnsModel rawColumns inspectorColumns rawForeignKeys tableName
        storedColumns)[i].label) =
      (rawColumns[i].1,
       getPrimaryKeyColumn inspectorColumns == some rawColumns[i].1,
       fkLookup rawForeignKeys tableName rawColumns[i].1,
       inferredFieldType inspectorColumns rawForeignKeys tableName storedColumns rawColumns[i],
       if rawColumns[i].1 = "id" then "ID" else humanize rawColumns[i].1) := by
  have h2 := congrArg (fun l => l[i]?)
    (getColumnsModel_proj rawColumns inspectorColumns rawForeignKeys tableName storedColumns)
  simp only [List.getElem?_map, List.getElem?_eq_getElem hi, List.getElem?_eq_getElem hi',
    Option.map_some', Option.some.injEq] at h2
  exact h2

/-- Filtering then projecting commutes with projecting the pair of image and
predicate value. -/
lemma filter_map_proj {α β : Type} (l : List α) (f : α → β) (p : α → Bool) :
    (l.filter p).map f =
      ((l.map (fun a => (f a, p a))).filter (fun x => x.2)).map (fun x => x.1) := by
  induction l with
  | nil => rfl
  | cons a t ih => by_cases h : p a <;> simp [h, ih]

lemma filter_fst_eq_of_not_mem (l : List (String × ColumnInfo)) (x : String)
    (hx : x ∉ l.map (fun p => p.1)) :
    l.filter (fun p => x == p.1) = [] := by
  induction l with
  | nil => rfl
  | cons a t ih =>
    simp only [List.map_cons, List.mem_cons] at hx
    push_neg at hx
    simp [List.filter_cons, hx.1, ih hx.2]

lemma filter_fst_eq_of_nodup_mem (l : List (String × ColumnInfo)) (x : String)
    (hnodup : (l.map (fun p => p.1)).Nodup) (hx : x ∈ l.map (fun p => p.1)) :
    (l.filter (fun p => x == p.1)).map (fun p => p.1) = [x] := by
  induction l with
  | nil => simp at hx
  | cons a t ih =>
    simp only [List.map_cons, List.nodup_cons] at hnodup
    rcases List.mem_cons.mp hx with h | h
    · subst h
      simp [List.filter_cons, filter_fst_eq_of_not_mem t a.1 hnodup.1]
    · have hne : x ≠ a.1 := by
        rintro rfl
        exact hnodup.1 h
      simp [List.filter_cons, hne, ih hnodup.2 h]

/-! ## Claims -/

/-- C2: the condition table of spec §4.4 does not hold for `starts_with` and
`ends_with`.  Evaluating the translator at the failing input
`{columnName: "name", condition: "starts_with", value: "an"}` shows the code
compiles `starts_with` to `LIKE` with `%` *prepended* (`"%an"`, a suffix
match) while the condition's evident meaning and the spec table demand the
`%` appended after the value (`"an%"`); `ends_with` is swapped symmetrically.
The two template strings in `getValue` are interchanged. -/
theorem getValue_starts_with_swapped :
    getCondition { columnName := "name", condition := "starts_with", value := "an" } = "LIKE" ∧
    getValue { columnName := "name", condition := "starts_with", value := "an" } = "%an" ∧
    getValue { columnName := "name", condition := "ends_with", value := "an" } = "an%" :=
  ⟨rfl, rfl, rfl⟩

/-- C4: `getRecords` applies `limit`, `offset` and the `select` projection to
the query exactly when both `limit` and `offset` are numeric; when at most
one of the two is provided the built query carries no limit, no offset and no
projection. -/
theorem getRecords_pagination_iff (tableName : String) (limit offset : Option Int)
    (filters : List IFilter) (orderBy orderDirection : String) (select : List String) :
    ((limit.isSome ∧ offset.isSome) →
      (getRecords tableName limit offset filters orderBy orderDirection select).limit = limit ∧
      (getRecords tableName limit offset filters orderBy orderDirection select).offset = offset ∧
      (getRecords tableName limit offset filters orderBy orderDirection select).select
        = some select) ∧
    (¬(limit.isSome ∧ offset.isSome) →
      (getRecords tableName limit offset filters orderBy orderDirection select).limit = none ∧
      (getRecords tableName limit offset filters orderBy orderDirection select).offset = none ∧
      (getRecords tableName limit offset filters orderBy orderDirection select).select
        = none) := by
  obtain ⟨h₁, h₂, h₃⟩ := getRecords_pagination_fields tableName limit offset filters
    orderBy orderDirection select
  constructor
  · intro hp
    have hb : (limit.isSome && offset.isSome) = true := by simp [hp.1, hp.2]
    simp [h₁, h₂, h₃, hb]
  · intro hp
    have hb : (limit.isSome && offset.isSome) = false := by
      cases hl : limit.isSome <;> cases ho : offset.isSome <;> simp_all
    simp [h₁, h₂, h₃, hb]

/-- Witness for C4: a request with only `limit` set is unpaginated and
unprojected. -/
theorem getRecords_pagination_iff_witness :
    ¬((some 10 : Option Int).isSome ∧ (none : Option Int).isSome) ∧
    ((getRecords "users" (some 10) none [] "name" "asc" ["id"]).limit = none ∧
     (getRecords "users" (some 10) none [] "name" "asc" ["id"]).offset = none ∧
     (getRecords "users" (some 10) none [] "name" "asc" ["id"]).select = none) :=
  ⟨by decide,
   (getRecords_pagination_iff "users" (some 10) none [] "name" "asc" ["id"]).2 (by decide)⟩

/-- C7: the column list returned by `getColumns` has exactly one entry per
engine-reported column, with the same names in the same order and the same
count, for every stored column configuration. -/
theorem getColumns_preserves_engine_columns (rawColumns : List (String × ColumnInfo))
    (inspectorColumns : List InspectorColumn)
    (rawForeignKeys : List RawForeignKey) (tableName : String)
    (storedColumns : StoredColumns) :
    (getColumnsModel rawColumns inspectorColumns rawForeignKeys tableName
        storedColumns).map (fun c => c.name) = rawColumns.map (fun p => p.1) ∧
    (getColumnsModel rawColumns inspectorColumns rawForeignKeys tableName
        storedColumns).length = rawColumns.length := by
  constructor
  · simp only [getColumnsModel, List.map_map]
    apply List.map_congr_left
    intro p _
    rfl
  · exact getColumnsModel_length rawColumns inspectorColumns rawForeignKeys tableName
      storedColumns

/-- C8: when no primary key column is discoverable, every record-level
operation returns the configuration error and produces no query at all
(the model's error value carries no query description). -/
theorem no_pk_fails_fast (columnInfo : List InspectorColumn) (tableName recordId : String)
    (select : List String) (data : RowData) (recordIds : List Int)
    (h : getPrimaryKeyColumn columnInfo = none) :
    getRecord columnInfo tableName recordId select = .error (pkError tableName) ∧
    createRecord columnInfo tableName data = .error (pkError tableName) ∧
    updateRecord columnInfo tableName recordId data = .error (pkError tableName) ∧
    deleteRecord columnInfo tableName recordId = .error (pkError tableName) ∧
    deleteRecords columnInfo tableName recordIds = .error (pkError tableName) := by
  refine ⟨?_, ?_, ?_, ?_, ?_⟩ <;>
    simp [getRecord, createRecord, updateRecord, deleteRecord, deleteRecords, h]

/-- Witness for C8: a table whose engine metadata flags no primary key. -/
theorem no_pk_fails_fast_witness :
    getPrimaryKeyColumn [{ name := "note", is_primary_key := false }] = none ∧
    (getRecord [{ name := "note", is_primary_key := false }] "logs" "7" ["note"]
        = .error (pkError "logs") ∧
     createRecord [{ name := "note", is_primary_key := false }] "logs" [("note", "x")]
        = .error (pkError "logs") ∧
     updateRecord [{ name := "note", is_primary_key := false }] "logs" "7" [("note", "x")]
        = .error (pkError "logs") ∧
     deleteRecord [{ name := "note", is_primary_key := false }] "logs" "7"
        = .error (pkError "logs") ∧
     deleteRecords [{ name := "note", is_primary_key := false }] "logs" [1, 2, 3]
        = .error (pkError "logs")) :=
  ⟨by decide,
   no_pk_fails_fast [{ name := "note", is_primary_key := false }] "logs" "7" ["note"]
     [("note", "x")] [1, 2, 3] (by decide)⟩

/-- C9 counterexample: the input `{name: "warehouse", type: "postgresql"}`
with no `options` object at all is accepted by the Joi schema, although the
claim requires a nested options object with a `url` field; so the claimed
"if and only if" characterization fails at this input.  (Moreover the schema
admits only `"postgresql"`, not the other engine enum values.) -/
theorem schemaValidate_cex :
    schemaValidate c9Input = true ∧ claimedSchemaAccepts c9Input = false :=
  ⟨by decide, by decide⟩

/-- C9 (amended): the schema accepts an input if and only if it has a name of
at least 3 characters, the type exactly `"postgresql"` (the only enum value
the schema allows), and — only when an `options` object is supplied — a
non-empty `url` string inside it; the `options` object itself is optional. -/
theorem schemaValidate_iff (input : NewDataSourceInput) :
    schemaValidate input = true ↔
      ((∃ n, input.name = some n ∧ 3 ≤ n.length) ∧
       input.type = some "postgresql" ∧
       (input.options = none ∨
        ∃ o u, input.options = some o ∧ o.url = some u ∧ u ≠ "")) := by
  obtain ⟨name, type, options⟩ := input
  cases name <;> cases type <;> rcases options with _ | ⟨_ | u⟩ <;>
    simp [schemaValidate, beq_iff_eq, and_assoc]

/-- C3 counterexample: for the column `full_name` with a stored label
`"Custom Label"`, `getColumns` returns the humanized name `"Full name"`, not
the stored label — `getColumnLabel` never consults the stored configuration. -/
theorem getColumns_label_cex :
    (getColumnsModel c3RawColumns [] [] "users" c3StoredColumns).map (fun c => c.label)
        = ["Full name"] ∧
    (["Full name"] : List String) ≠ ["Custom Label"] :=
  ⟨rfl, by decide⟩

/-- C3 (amended): the label of every column returned by `getColumns` is the
humanized column name, with the column named `"id"` special-cased to `"ID"`;
stored labels and native label overrides are not consulted. -/
theorem getColumns_label_humanized (rawColumns : List (String × ColumnInfo))
    (inspectorColumns : List InspectorColumn)
    (rawForeignKeys : List RawForeignKey) (tableName : String)
    (storedColumns : StoredColumns) :
    (getColumnsModel rawColumns inspectorColumns rawForeignKeys tableName
        storedColumns).map (fun c => c.label) =
      rawColumns.map (fun p => if p.1 = "id" then "ID" else humanize p.1) := by
  simp only [getColumnsModel, List.map_map]
  apply List.map_congr_left
  intro p _
  rfl

/-- C6: the stored-options merge of `getColumns` is shallow and per-key
right-biased — a key present in the stored options fully replaces the default
at that key, a key absent from the stored options leaves the default
unchanged, and a column with no stored options keeps its defaults as they
are. -/
theorem mergeStoredOptions_shallow (column : ColumnWithFieldOptions) (sc : StoredColumn)
    (bo fo : Obj) (k : String)
    (hb : sc.baseOptions = some bo) (hf : sc.fieldOptions = some fo) :
    ((bo k).isSome → (mergeStoredOptions column (some sc)).baseOptions k = bo k) ∧
    (bo k = none →
      (mergeStoredOptions column (some sc)).baseOptions k = column.baseOptions k) ∧
    ((fo k).isSome → (mergeStoredOptions column (some sc)).fieldOptions k = fo k) ∧
    (fo k = none →
      (mergeStoredOptions column (some sc)).fieldOptions k = column.fieldOptions k) ∧
    (mergeStoredOptions column none).baseOptions = column.baseOptions ∧
    (mergeStoredOptions column none).fieldOptions = column.fieldOptions := by
  refine ⟨?_, ?_, ?_, ?_, rfl, rfl⟩
  · intro hs
    obtain ⟨v, hv⟩ := Option.isSome_iff_exists.mp hs
    simp [mergeStoredOptions, spread, hb, hv]
  · intro hn
    simp [mergeStoredOptions, spread, hb, hn]
  · intro hs
    obtain ⟨v, hv⟩ := Option.isSome_iff_exists.mp hs
    simp [mergeStoredOptions, spread, hf, hv]
  · intro hn
    simp [mergeStoredOptions, spread, hf, hn]

/-- Witness for C6: the stored key `required` replaces the default, the
unset key `help` keeps its default. -/
theorem mergeStoredOptions_shallow_witness :
    ((c6Base "required").isSome ∧
      (mergeStoredOptions c6Column (some c6Stored)).baseOptions "required"
        = c6Base "required") ∧
    (c6Base "help" = none ∧
      (mergeStoredOptions c6Column (some c6Stored)).baseOptions "help"
        = c6Column.baseOptions "help") :=
  ⟨⟨by decide,
    (mergeStoredOptions_shallow c6Column c6Stored c6Base c6Field "required" rfl rfl).1
      (by decide)⟩,
   ⟨by decide,
    (mergeStoredOptions_shallow c6Column c6Stored c6Base c6Field "help" rfl rfl).2.1
      (by decide)⟩⟩

/-- C5: a column whose stored configuration declares a `fieldType` and which
carries no foreign key gets the stored field type verbatim, bypassing the
native-type inference. -/
theorem stored_fieldType_verbatim (rawColumns : List (String × ColumnInfo))
    (inspectorColumns : List InspectorColumn)
    (rawForeignKeys : List RawForeignKey) (tableName : String)
    (storedColumns : StoredColumns) (i : Nat) (ft : FieldType)
    (hi : i < (getColumnsModel rawColumns inspectorColumns rawForeignKeys tableName
      storedColumns).length)
    (hstored : storedFieldType storedColumns
      ((getColumnsModel rawColumns inspectorColumns rawForeignKeys tableName
        storedColumns)[i]).name = some ft)
    (_hnofk : ((getColumnsModel rawColumns inspectorColumns rawForeignKeys tableName
      storedColumns)[i]).foreignKeyInfo = none) :
    ((getColumnsModel rawColumns inspectorColumns rawForeignKeys tableName
      storedColumns)[i]).fieldType = ft := by
  have hi' : i < rawColumns.length := by
    simpa [getColumnsModel_length] using hi
  have h := getColumnsModel_getElem rawColumns inspectorColumns rawForeignKeys tableName
    storedColumns i hi hi'
  simp only [Prod.mk.injEq] at h
  obtain ⟨hname, -, -, hft, -⟩ := h
  rw [hname] at hstored
  rw [hft, inferredFieldType, hstored]

/-- Witness for C5: an integer column `score` with stored field type
`Textarea` and no foreign key comes out as `Textarea`, not as the inferred
`Number`. -/
theorem stored_fieldType_verbatim_witness :
    (0 < (getColumnsModel c5RawColumns [] [] "games" c5StoredColumns).length ∧
     storedFieldType c5StoredColumns
        ((getColumnsModel c5RawColumns [] [] "games" c5StoredColumns)[0]).name
        = some .Textarea ∧
     ((getColumnsModel c5RawColumns [] [] "games" c5StoredColumns)[0]).foreignKeyInfo
        = none) ∧
    ((getColumnsModel c5RawColumns [] [] "games" c5StoredColumns)[0]).fieldType
        = .Textarea :=
  ⟨⟨by decide, by decide, by decide⟩,
   stored_fieldType_verbatim c5RawColumns [] [] "games" c5StoredColumns 0 .Textarea
     (by decide) (by decide) (by decide)⟩

/-- C1 counterexample: the foreign-key column `owner_id` with a stored
`fieldType` of `Text` comes out of `getColumns` with `fieldType = Text`, not
`Association` — the stored override, not foreign-key detection, has the
highest precedence (`storedColumn?.fieldType || getFieldTypeFromColumnInfo`). -/
theorem fk_association_cex :
    (getColumnsModel c1RawColumns c1InspectorColumns c1ForeignKeys "posts"
        c1StoredColumns).map (fun c => (c.foreignKeyInfo.isSome, c.fieldType))
      = [(true, FieldType.Text)] ∧
    FieldType.Text ≠ FieldType.Association :=
  ⟨rfl, by decide⟩

/-- C1 (amended): a column with `foreignKeyInfo` present gets
`fieldType = Association` whenever the stored configuration declares no
`fieldType` for it; a stored `fieldType` overrides even foreign-key
detection, which takes precedence only over native-type inference. -/
theorem fk_association_unless_stored (rawColumns : List (String × ColumnInfo))
    (inspectorColumns : List InspectorColumn)
    (rawForeignKeys : List RawForeignKey) (tableName : String)
    (storedColumns : StoredColumns) (i : Nat)
    (hi : i < (getColumnsModel rawColumns inspectorColumns rawForeignKeys tableName
      storedColumns).length)
    (hfk : ((getColumnsModel rawColumns inspectorColumns rawForeignKeys tableName
      storedColumns)[i]).foreignKeyInfo.isSome = true)
    (hstored : storedFieldType storedColumns
      ((getColumnsModel rawColumns inspectorColumns rawForeignKeys tableName
        storedColumns)[i]).name = none) :
    ((getColumnsModel rawColumns inspectorColumns rawForeignKeys tableName
      storedColumns)[i]).fieldType = .Association := by
  have hi' : i < rawColumns.length := by
    simpa [getColumnsModel_length] using hi
  have h := getColumnsModel_getElem rawColumns inspectorColumns rawForeignKeys tableName
    storedColumns i hi hi'
  simp only [Prod.mk.injEq] at h
  obtain ⟨hname, -, hfkEq, hft, -⟩ := h
  rw [hname] at hstored
  rw [hfkEq] at hfk
  rw [hft, inferredFieldType, hstored]
  simp [getFieldTypeFromColumnInfo, hfk]

/-- Witness for C1 (amended): the foreign-key column `owner_id` with no
stored configuration at all comes out as `Association`. -/
theorem fk_association_unless_stored_witness :
    (0 < (getColumnsModel c1RawColumns c1InspectorColumns c1ForeignKeys "posts"
        none).length ∧
     ((getColumnsModel c1RawColumns c1InspectorColumns c1ForeignKeys "posts"
        none)[0]).foreignKeyInfo.isSome = true ∧
     storedFieldType none
        ((getColumnsModel c1RawColumns c1InspectorColumns c1ForeignKeys "posts"
          none)[0]).name = none) ∧
    ((getColumnsModel c1RawColumns c1InspectorColumns c1ForeignKeys "posts"
      none)[0]).fieldType = .Association :=
  ⟨⟨by decide, by decide, by decide⟩,
   fk_association_unless_stored c1RawColumns c1InspectorColumns c1ForeignKeys "posts"
     none 0 (by decide) (by decide) (by decide)⟩

/-- C10: when the engine metadata flags more than one column as primary key,
`getPrimaryKeyColumn` returns the name of the first flagged column in the
engine-reported order (the function is total, so no error is raised), and
`getColumns` marks exactly that one column with `primaryKey = true` and every
other column with `primaryKey = false`. -/
theorem composite_pk_reduced_to_first (rawColumns : List (String × ColumnInfo))
    (inspectorColumns : List InspectorColumn)
    (rawForeignKeys : List RawForeignKey) (tableName : String)
    (storedColumns : StoredColumns) (pkc : InspectorColumn)
    (hfind : inspectorColumns.find? (fun c => c.is_primary_key) = some pkc)
    (_hcomp : 2 ≤ inspectorColumns.countP (fun c => c.is_primary_key))
    (hmem : pkc.name ∈ rawColumns.map (fun p => p.1))
    (hnodup : (rawColumns.map (fun p => p.1)).Nodup) :
    getPrimaryKeyColumn inspectorColumns = some pkc.name ∧
    ((getColumnsModel rawColumns inspectorColumns rawForeignKeys tableName
        storedColumns).filter (fun c => c.primaryKey)).map (fun c => c.name)
      = [pkc.name] ∧
    (getColumnsModel rawColumns inspectorColumns rawForeignKeys tableName
        storedColumns).countP (fun c => c.primaryKey) = 1 := by
  have hpk : getPrimaryKeyColumn inspectorColumns = some pkc.name := by
    simp [getPrimaryKeyColumn, hfind]
  have hfil : ((getColumnsModel rawColumns inspectorColumns rawForeignKeys tableName
      storedColumns).filter (fun c => c.primaryKey)).map (fun c => c.name)
      = [pkc.name] := by
    rw [filter_map_proj, getColumnsModel_name_pk,
      ← filter_map_proj rawColumns (fun p => p.1)
        (fun p => getPrimaryKeyColumn inspectorColumns == some p.1)]
    have hcong : rawColumns.filter
        (fun p => getPrimaryKeyColumn inspectorColumns == some p.1)
        = rawColumns.filter (fun p => pkc.name == p.1) := by
      apply List.filter_congr
      intro p _
      rw [hpk]
      rfl
    rw [hcong]
    exact filter_fst_eq_of_nodup_mem rawColumns pkc.name hnodup hmem
  refine ⟨hpk, hfil, ?_⟩
  have hlen := congrArg List.length hfil
  simpa [List.countP_eq_length_filter] using hlen

/-- Witness for C10: a join table with a composite primary key
`(order_id, product_id)` is reduced to its first flagged column `order_id`. -/
theorem composite_pk_reduced_to_first_witness :
    (c10InspectorColumns.find? (fun c => c.is_primary_key)
        = some { name := "order_id", is_primary_key := true } ∧
     2 ≤ c10InspectorColumns.countP (fun c => c.is_primary_key)) ∧
    (getPrimaryKeyColumn c10InspectorColumns = some "order_id" ∧
     ((getColumnsModel c10RawColumns c10InspectorColumns [] "order_items"
        none).filter (fun c => c.primaryKey)).map (fun c => c.name) = ["order_id"] ∧
     (getColumnsModel c10RawColumns c10InspectorColumns [] "order_items"
        none).countP (fun c => c.primaryKey) = 1) :=
  ⟨⟨by decide, by decide⟩,
   composite_pk_reduced_to_first c10RawColumns c10InspectorColumns [] "order_items"
     none { name := "order_id", is_primary_key := true }
     (by decide) (by decide) (by decide) (by decide)⟩

end ProtectDashboard
